import Mathlib

/-!
Shallow embedding of the testimonial-wall application (src/app.py) and
verification of its specification claims.

The Flask application stores three SQLAlchemy models (User, Testimonial,
PromoCode) in a relational database and exposes route handlers that read
and mutate them.  We embed the database as an explicit state value (lists
of rows plus autoincrement counters) and each route handler as a function
from the state (together with the form data of the request and the id of the acting
logged-in user) to a result and a new state.  External collaborators
(Stripe, password hashing) are modelled as explicit inputs.
-/

namespace TestimonialWall

/-- Entitlement tier of a tenant: `User.subscription_status` in app.py,
one of the strings `inactive` (called `locked` by the spec), `active`, `lifetime`. -/
inductive SubStatus where
  | inactive
  | active
  | lifetime
deriving DecidableEq, Repr

/-- Moderation status of a testimonial: `Testimonial.status` in app.py,
one of the strings `pending`, `approved`, `hidden`. -/
inductive TStatus where
  | pending
  | approved
  | hidden
deriving DecidableEq, Repr

/-- Row of the `User` model (app.py lines 38-52). -/
structure User where
  id : Nat
  email : String
  password_hash : String
  subscription_status : SubStatus
  stripe_customer_id : Option String
  wall_title : Option String
deriving DecidableEq, Repr

/-- Row of the `Testimonial` model (app.py lines 54-60). -/
structure Testimonial where
  id : Nat
  author_name : String
  content : String
  status : TStatus
  rating : Int
  user_id : Nat
deriving DecidableEq, Repr

/-- Row of the `PromoCode` model (app.py lines 63-67). -/
structure PromoCode where
  id : Nat
  code : String
  is_active : Bool
  redeemed_by_user_id : Option Nat
deriving DecidableEq, Repr

/-- The database state: the three tables plus autoincrement counters for
the integer primary keys. -/
structure DB where
  users : List User
  testimonials : List Testimonial
  promo_codes : List PromoCode
  next_user_id : Nat
  next_testimonial_id : Nat
  next_promo_id : Nat
deriving DecidableEq, Repr

/-- Primary-key lookup `User.query.get(uid)`. -/
def findUser (db : DB) (uid : Nat) : Option User :=
  db.users.find? (fun u => u.id == uid)

/-- Primary-key lookup `Testimonial.query.get(tid)`. -/
def findTestimonial (db : DB) (tid : Nat) : Option Testimonial :=
  db.testimonials.find? (fun t => t.id == tid)

/-- Lookup `PromoCode.query.filter_by(code=key).first()`. -/
def findPromoByCode (db : DB) (key : String) : Option PromoCode :=
  db.promo_codes.find? (fun p => p.code == key)

/-- Entitlement tier of the tenant with the given id, if it exists. -/
def statusOf (db : DB) (uid : Nat) : Option SubStatus :=
  (findUser db uid).map (fun u => u.subscription_status)

/-- Outcome of the `/redeem-code` handler: each branch of `redeem_code`
in app.py flashes one message and redirects, so the outcome is which
branch was taken. -/
inductive RedeemOutcome where
  | emptyCode
  | invalidCode
  | usedCode
  | alreadyEntitled
  | success
deriving DecidableEq, Repr

/-- The flash message each branch of `redeem_code` emits (the observable
the caller receives besides the redirect), verbatim from app.py
lines 168-191. -/
def redeemFlash : RedeemOutcome → String
  | RedeemOutcome.emptyCode => "Please enter a code."
  | RedeemOutcome.invalidCode => "Invalid promotional code."
  | RedeemOutcome.usedCode => "This code has already been used."
  | RedeemOutcome.alreadyEntitled => "You already have an active or lifetime subscription."
  | RedeemOutcome.success => "Congratulations! You now have free lifetime access."

/-- The Python method `str.upper` applied to the submitted code string:
ASCII lowercase letters are mapped to uppercase character by character,
and no whitespace is removed (there is no call to `str.strip` anywhere in
`redeem_code`). -/
def upperStr (s : String) : String := String.mk (s.data.map Char.toUpper)

/-- The read phase of `redeem_code` (app.py line 171): the SELECT issued
by `PromoCode.query.filter_by(code=code_str.upper()).first()`.  It reads
the currently committed state; in a concurrent execution another request
may commit after this read and before the write of this request. -/
def redeemRead (db : DB) (code_str : String) : Option PromoCode :=
  findPromoByCode db (upperStr code_str)

/-- The writes of the success branch of `redeem_code` (app.py lines
186-190): the promo-code row identified by `pcid` gets `is_active=False`
and `redeemed_by_user_id=uid`, the user row identified by `uid` gets
`subscription_status=lifetime`, committed together. -/
def applyRedeemWrite (db : DB) (uid : Nat) (pcid : Nat) : DB :=
  { db with
    promo_codes := db.promo_codes.map (fun p =>
      if p.id == pcid then
        { p with is_active := false, redeemed_by_user_id := some uid }
      else p)
    users := db.users.map (fun u =>
      if u.id == uid then
        { u with subscription_status := SubStatus.lifetime }
      else u) }

/-- The check-and-write phase of `redeem_code` (app.py lines 173-191):
branches on the snapshot `promo` obtained by `redeemRead`, and on the
entitlement of the acting user; the success branch then applies
`applyRedeemWrite` to the current state.  The checks use the snapshot —
the write is not conditioned on the row still being active at write
time. -/
def redeemCommit (db : DB) (uid : Nat) (promo : Option PromoCode) :
    RedeemOutcome × DB :=
  match promo with
  | none => (RedeemOutcome.invalidCode, db)
  | some pc =>
    if pc.is_active = false then
      (RedeemOutcome.usedCode, db)
    else if statusOf db uid = some SubStatus.active ∨
            statusOf db uid = some SubStatus.lifetime then
      (RedeemOutcome.alreadyEntitled, db)
    else
      (RedeemOutcome.success, applyRedeemWrite db uid pc.id)

/-- The `/redeem-code` handler `redeem_code` (app.py lines 162-192) run
as one sequential request: `form_code` is `request.form.get(..)` on the promo-code field
(absent field gives `None`, and both `None` and the empty string are
falsy), then the read phase and the check-and-write phase run back to
back against the same state. -/
def redeem_code (db : DB) (uid : Nat) (form_code : Option String) :
    RedeemOutcome × DB :=
  match form_code with
  | none => (RedeemOutcome.emptyCode, db)
  | some s =>
    if s = "" then (RedeemOutcome.emptyCode, db)
    else redeemCommit db uid (redeemRead db s)

/-- N sequential redemption attempts against the same code string, each
request completing (read through commit) before the next starts. -/
def redeemAll (db : DB) (uids : List Nat) (raw : String) :
    List RedeemOutcome × DB :=
  match uids with
  | [] => ([], db)
  | u :: rest =>
    let r1 := redeem_code db u (some raw)
    let r2 := redeemAll r1.2 rest raw
    (r1.1 :: r2.1, r2.2)

/-- Outcome of the public submission handler `collect_testimonial`. -/
inductive SubmitOutcome where
  | notFound
  | badRequest
  | submitted (tid : Nat)
deriving DecidableEq, Repr

/-- The `/collect/<int:user_id>` POST handler `collect_testimonial`
(app.py lines 195-206).  `User.query.get_or_404(user_id)` aborts with 404
for an unknown tenant.  the subscript accesses `request.form[..]` for
the author-name and content fields raise (a 400 response) only when the form FIELD
is absent — a present-but-empty value is the empty string and is accepted.
the rating is read with a default of 5, `int(request.form.get(.., 5))`, so it defaults to 5 when the
field is omitted; no range validation is performed.  The new row gets
status `pending` from the column default. -/
def collect_testimonial (db : DB) (user_id : Nat)
    (form_author form_content : Option String) (form_rating : Option Int) :
    SubmitOutcome × DB :=
  match findUser db user_id with
  | none => (SubmitOutcome.notFound, db)
  | some user =>
    match form_author, form_content with
    | some name, some text =>
      let t : Testimonial :=
        { id := db.next_testimonial_id
          author_name := name
          content := text
          status := TStatus.pending
          rating := form_rating.getD 5
          user_id := user.id }
      (SubmitOutcome.submitted t.id,
        { db with
          testimonials := db.testimonials ++ [t]
          next_testimonial_id := db.next_testimonial_id + 1 })
    | _, _ => (SubmitOutcome.badRequest, db)

/-- Outcome of a testimonial moderation handler: 404 from `get_or_404`,
the literal `("Unauthorized", 403)` response, or the redirect to the
dashboard on completion. -/
inductive ModOutcome where
  | notFound
  | forbidden
  | done
deriving DecidableEq, Repr

/-- The `/approve/<int:testimonial_id>` handler `approve_testimonial`
(app.py lines 221-229): `get_or_404`, then the ownership check
`testimonial.owner != current_user` (object identity, i.e. the owning
user id differs from the id of the acting user), then the status is set to `approved`. -/
def approve_testimonial (db : DB) (uid : Nat) (tid : Nat) : ModOutcome × DB :=
  match findTestimonial db tid with
  | none => (ModOutcome.notFound, db)
  | some t =>
    if t.user_id ≠ uid then (ModOutcome.forbidden, db)
    else
      (ModOutcome.done,
        { db with
          testimonials := db.testimonials.map (fun x =>
            if x.id == tid then { x with status := TStatus.approved } else x) })

/-- The `/hide/<int:testimonial_id>` handler `hide_testimonial`
(app.py lines 231-239), identical to approval but writing `hidden`. -/
def hide_testimonial (db : DB) (uid : Nat) (tid : Nat) : ModOutcome × DB :=
  match findTestimonial db tid with
  | none => (ModOutcome.notFound, db)
  | some t =>
    if t.user_id ≠ uid then (ModOutcome.forbidden, db)
    else
      (ModOutcome.done,
        { db with
          testimonials := db.testimonials.map (fun x =>
            if x.id == tid then { x with status := TStatus.hidden } else x) })

/-- The `/delete/<int:testimonial_id>` handler `delete_testimonial`
(app.py lines 241-250): same lookup and ownership check, then
`db.session.delete(testimonial)`. -/
def delete_testimonial (db : DB) (uid : Nat) (tid : Nat) : ModOutcome × DB :=
  match findTestimonial db tid with
  | none => (ModOutcome.notFound, db)
  | some t =>
    if t.user_id ≠ uid then (ModOutcome.forbidden, db)
    else
      (ModOutcome.done,
        { db with
          testimonials := db.testimonials.filter (fun x => ¬ x.id == tid) })

/-- The `/update-wall-settings` handler (app.py lines 212-219): stores
the submitted wall-title field on the acting user unconditionally. -/
def update_wall_settings (db : DB) (uid : Nat) (title : Option String) : DB :=
  { db with
    users := db.users.map (fun u =>
      if u.id == uid then { u with wall_title := title } else u) }

/-- The `/success` checkout-callback handler (app.py lines 273-278): it
unconditionally sets `current_user.subscription_status` to `active` and
commits — there is no check of the current tier of the user and no
verification of payment. -/
def success (db : DB) (uid : Nat) : DB :=
  { db with
    users := db.users.map (fun u =>
      if u.id == uid then { u with subscription_status := SubStatus.active }
      else u) }

/-- Outcome of the `/signup` POST handler. -/
inductive SignupOutcome where
  | duplicateEmail
  | providerError (msg : String)
  | created (uid : Nat)
deriving DecidableEq, Repr

/-- The `/signup` POST handler (app.py lines 98-127).  The duplicate-email
check runs first; then `stripe.Customer.create` is called — the external
Stripe call is modelled as an explicit input `stripeResult` (the customer
id on success, the exception message on failure).  Only when it succeeds
is the new `User` row constructed (with the returned customer id) and
committed; on failure the handler flashes the error and returns with no
row added.  Password hashing is external (werkzeug); the credential is
stored opaquely. -/
def signup (db : DB) (email password : String)
    (stripeResult : Except String String) : SignupOutcome × DB :=
  if db.users.any (fun u => u.email == email) then
    (SignupOutcome.duplicateEmail, db)
  else
    match stripeResult with
    | Except.error e => (SignupOutcome.providerError e, db)
    | Except.ok customer_id =>
      let u : User :=
        { id := db.next_user_id
          email := email
          password_hash := password
          subscription_status := SubStatus.inactive
          stripe_customer_id := some customer_id
          wall_title := none }
      (SignupOutcome.created u.id,
        { db with
          users := db.users ++ [u]
          next_user_id := db.next_user_id + 1 })

/-- The `/admin/<admin_key>` POST branch (app.py lines 86-92): inserts a
freshly generated code string as a new `PromoCode` row with the column
defaults `is_active=True`, `redeemed_by_user_id=NULL`.  The random
generation (`secrets.token_hex(8).upper()`) is external; the string is an
input here. -/
def admin_generate_code (db : DB) (new_code_str : String) : DB :=
  { db with
    promo_codes := db.promo_codes ++
      [{ id := db.next_promo_id
         code := new_code_str
         is_active := true
         redeemed_by_user_id := none }]
    next_promo_id := db.next_promo_id + 1 }

/-- SQL ordering `ORDER BY id DESC` used by the wall query: row `a` comes
before row `b` when `b.id ≤ a.id`. -/
def wallOrder (a b : Testimonial) : Prop := b.id ≤ a.id

instance : DecidableRel wallOrder := fun a b => Nat.decLe b.id a.id

instance : IsTotal Testimonial wallOrder :=
  ⟨fun a b => Nat.le_total b.id a.id⟩

instance : IsTrans Testimonial wallOrder :=
  ⟨fun _ _ _ hab hbc => Nat.le_trans hbc hab⟩

/-- The `/wall/<int:user_id>` handler `show_wall` (app.py lines 298-302):
`get_or_404` on the tenant, then
a filtered query on owner and status `approved`, with `order_by(Testimonial.id.desc())`.
It issues only SELECTs; the function returns no new state because the
handler performs no write.  `none` is the 404 case. -/
def show_wall (db : DB) (user_id : Nat) : Option (List Testimonial) :=
  match findUser db user_id with
  | none => none
  | some user =>
    some (List.insertionSort wallOrder
      (db.testimonials.filter (fun t =>
        t.user_id == user.id && t.status == TStatus.approved)))

/-- One inbound request: every state-mutating route handler of app.py,
with its request parameters. -/
inductive Op where
  | opSignup (email password : String) (stripeResult : Except String String)
  | opRedeem (uid : Nat) (form_code : Option String)
  | opCollect (target : Nat) (author content : Option String) (rating : Option Int)
  | opApprove (uid tid : Nat)
  | opHide (uid tid : Nat)
  | opDelete (uid tid : Nat)
  | opUpdateWall (uid : Nat) (title : Option String)
  | opSuccess (uid : Nat)
  | opAdminGenerate (code_str : String)
deriving Repr

/-- Whether a request is the unconditionally-trusting checkout success
callback `/success`. -/
def Op.isSuccessCallback : Op → Bool
  | Op.opSuccess _ => true
  | _ => false

/-- State transition of one request: dispatches to the handler and keeps
the resulting state.  Handlers that never write (login, logout,
dashboard, show_wall, checkout/billing-portal session creation, cancel)
leave the state unchanged and are omitted. -/
def step (db : DB) : Op → DB
  | Op.opSignup email password stripeResult => (signup db email password stripeResult).2
  | Op.opRedeem uid form_code => (redeem_code db uid form_code).2
  | Op.opCollect target author content rating =>
      (collect_testimonial db target author content rating).2
  | Op.opApprove uid tid => (approve_testimonial db uid tid).2
  | Op.opHide uid tid => (hide_testimonial db uid tid).2
  | Op.opDelete uid tid => (delete_testimonial db uid tid).2
  | Op.opUpdateWall uid title => update_wall_settings db uid title
  | Op.opSuccess uid => success db uid
  | Op.opAdminGenerate code_str => admin_generate_code db code_str

/-! ### Concrete example data used to exercise the model -/

/-- Example tenant 1: signed up, entitlement still `inactive`. -/
def exUser1 : User :=
  { id := 1, email := "alice@example.com", password_hash := "pw1"
    subscription_status := SubStatus.inactive
    stripe_customer_id := some "cus_1", wall_title := none }

/-- Example tenant 2: also `inactive`. -/
def exUser2 : User :=
  { id := 2, email := "bob@example.com", password_hash := "pw2"
    subscription_status := SubStatus.inactive
    stripe_customer_id := some "cus_2", wall_title := none }

/-- Example tenant 3: already on the `lifetime` tier. -/
def exUser3 : User :=
  { id := 3, email := "carol@example.com", password_hash := "pw3"
    subscription_status := SubStatus.lifetime
    stripe_customer_id := some "cus_3", wall_title := none }

/-- Example promo code that is still redeemable. -/
def exCodeActive : PromoCode :=
  { id := 1, code := "AB12", is_active := true, redeemed_by_user_id := none }

/-- Example promo code that has already been consumed. -/
def exCodeUsed : PromoCode :=
  { id := 2, code := "CD34", is_active := false, redeemed_by_user_id := some 3 }

/-- Example testimonial owned by tenant 1, already approved. -/
def exT1 : Testimonial :=
  { id := 1, author_name := "Ann", content := "Great service!"
    status := TStatus.approved, rating := 5, user_id := 1 }

/-- Example database state holding the rows above. -/
def exDB : DB :=
  { users := [exUser1, exUser2, exUser3]
    testimonials := [exT1]
    promo_codes := [exCodeActive, exCodeUsed]
    next_user_id := 4
    next_testimonial_id := 2
    next_promo_id := 3 }

/-! ### Helper lemmas about row-keyed list operations -/

/-- A `find?` over a mapped list, when the map does not change the value
of the predicate, finds the image of what the plain `find?` finds. -/
theorem find?_map_of_pred {α : Type} (f : α → α) (p : α → Bool) (l : List α)
    (h : ∀ a, p (f a) = p a) : (l.map f).find? p = (l.find? p).map f := by
  induction l with
  | nil => rfl
  | cons a l ih =>
    cases hp : p a with
    | true =>
      have hfa : p (f a) = true := by rw [h a, hp]
      simp [List.find?_cons, hfa, hp]
    | false =>
      have hfa : p (f a) = false := by rw [h a, hp]
      simp [List.find?_cons, hfa, hp, ih]

/-- Appending rows does not change what an earlier successful `find?`
returns. -/
theorem find?_append_some {α : Type} (p : α → Bool) {l₁ : List α}
    (l₂ : List α) {a : α} (h : l₁.find? p = some a) :
    (l₁ ++ l₂).find? p = some a := by
  rw [List.find?_append, h]
  rfl

/-- Looking a user up after an id-preserving rewrite of the user table
finds the rewritten image of the original row. -/
theorem findUser_list_map (l : List User) (g : User → User) (uid : Nat)
    (hid : ∀ v, (g v).id = v.id) :
    (l.map g).find? (fun u => u.id == uid) =
      (l.find? (fun u => u.id == uid)).map g :=
  find?_map_of_pred g _ l (fun v => by rw [hid v])

/-- The user-table rewrite of the redemption write targets only the
redeeming user: the looked-up status of any user becomes `lifetime` when
it is the redeemer, and is unchanged otherwise. -/
theorem findUser_applyRedeemWrite (db : DB) (ruid pcid uid : Nat) :
    findUser (applyRedeemWrite db ruid pcid) uid =
      (findUser db uid).map (fun u =>
        if u.id == ruid then
          { u with subscription_status := SubStatus.lifetime }
        else u) := by
  unfold findUser applyRedeemWrite
  exact findUser_list_map _ _ _ (fun v => by split <;> rfl)

/-- The redeeming user ends on the `lifetime` tier after the redemption
write. -/
theorem statusOf_applyRedeemWrite_self (db : DB) (ruid pcid : Nat) (u : User)
    (hu : findUser db ruid = some u) :
    statusOf (applyRedeemWrite db ruid pcid) ruid = some SubStatus.lifetime := by
  have hu2 : db.users.find? (fun w => w.id == ruid) = some u := hu
  have heq : u.id = ruid := by
    have h3 := List.find?_some hu2
    simpa using h3
  simp [statusOf, findUser_applyRedeemWrite, hu, heq]

/-- Users other than the redeemer keep their entitlement across the
redemption write. -/
theorem statusOf_applyRedeemWrite_other (db : DB) (ruid pcid v : Nat)
    (hv : v ≠ ruid) :
    statusOf (applyRedeemWrite db ruid pcid) v = statusOf db v := by
  rw [statusOf, statusOf, findUser_applyRedeemWrite]
  cases hu : findUser db v with
  | none => rfl
  | some u =>
    have hu2 : db.users.find? (fun w => w.id == v) = some u := hu
    have heq : u.id = v := by
      have h3 := List.find?_some hu2
      simpa using h3
    simp [heq, hv]

/-- After the redemption write, looking the same code string up again
finds the row deactivated and stamped with the redeeming user. -/
theorem findPromoByCode_applyRedeemWrite (db : DB) (ruid : Nat)
    (pc : PromoCode) (key : String) (h : findPromoByCode db key = some pc) :
    findPromoByCode (applyRedeemWrite db ruid pc.id) key =
      some { pc with is_active := false, redeemed_by_user_id := some ruid } := by
  unfold findPromoByCode applyRedeemWrite
  rw [find?_map_of_pred _ _ _ (fun p => by split <;> rfl)]
  unfold findPromoByCode at h
  rw [h]
  simp

/-- A non-empty submitted code string reaches the read and commit
phases. -/
theorem redeem_code_some (db : DB) (uid : Nat) (raw : String)
    (hraw : raw ≠ "") :
    redeem_code db uid (some raw) = redeemCommit db uid (redeemRead db raw) := by
  simp [redeem_code, hraw]

/-- When the lookup finds a deactivated code, the handler reports the
used-code error and leaves the state untouched. -/
theorem redeem_code_inactive (db : DB) (uid : Nat) (raw : String)
    (pc : PromoCode) (hraw : raw ≠ "") (h : redeemRead db raw = some pc)
    (hin : pc.is_active = false) :
    redeem_code db uid (some raw) = (RedeemOutcome.usedCode, db) := by
  rw [redeem_code_some db uid raw hraw, h]
  simp [redeemCommit, hin]

/-- When the lookup finds an active code and the acting user is on the
`inactive` tier, the handler succeeds and applies the redemption
write. -/
theorem redeem_code_success (db : DB) (uid : Nat) (raw : String)
    (pc : PromoCode) (hraw : raw ≠ "") (h : redeemRead db raw = some pc)
    (hact : pc.is_active = true)
    (hst : statusOf db uid = some SubStatus.inactive) :
    redeem_code db uid (some raw) =
      (RedeemOutcome.success, applyRedeemWrite db uid pc.id) := by
  rw [redeem_code_some db uid raw hraw, h]
  simp [redeemCommit, hact, hst]

/-- Once the lookup yields a deactivated code, any number of further
sequential attempts all fail with the used-code error and never change
the state. -/
theorem redeemAll_inactive (db : DB) (uids : List Nat) (raw : String)
    (pc : PromoCode) (hraw : raw ≠ "") (h : redeemRead db raw = some pc)
    (hin : pc.is_active = false) :
    redeemAll db uids raw =
      (List.replicate uids.length RedeemOutcome.usedCode, db) := by
  induction uids with
  | nil => rfl
  | cons u rest ih =>
    simp [redeemAll, redeem_code_inactive db u raw pc hraw h hin, ih,
      List.replicate_succ]

/-- The state produced by one redemption request is either unchanged or
the redemption write for some promo-code row. -/
theorem redeem_code_state (db : DB) (ruid : Nat) (form : Option String) :
    (redeem_code db ruid form).2 = db ∨
    ∃ pcid, (redeem_code db ruid form).2 = applyRedeemWrite db ruid pcid := by
  cases form with
  | none => left; rfl
  | some s =>
    by_cases hs : s = ""
    · left
      simp [redeem_code, hs]
    · rw [redeem_code_some db ruid s hs]
      cases hr : redeemRead db s with
      | none => left; rfl
      | some pc =>
        simp only [redeemCommit]
        split
        · left; rfl
        · split
          · left; rfl
          · right
            exact ⟨pc.id, rfl⟩

/-- Effect of one request on the entitlement of an existing tenant: it is
either unchanged, or set to `lifetime` (by a successful redemption), or
set to `active` (only by the checkout success callback). -/
theorem statusOf_step (db : DB) (op : Op) (uid : Nat) (u : User)
    (hu : findUser db uid = some u) :
    statusOf (step db op) uid = statusOf db uid ∨
    statusOf (step db op) uid = some SubStatus.lifetime ∨
    (Op.isSuccessCallback op = true ∧
      statusOf (step db op) uid = some SubStatus.active) := by
  have hu2 : db.users.find? (fun w => w.id == uid) = some u := hu
  cases op with
  | opSignup email password stripeResult =>
    left
    simp only [step, signup]
    split
    · rfl
    · cases stripeResult with
      | error e => rfl
      | ok cid =>
        simp only [statusOf, findUser]
        rw [find?_append_some _ _ hu2, hu2]
  | opRedeem ruid form =>
    rcases redeem_code_state db ruid form with h | ⟨pcid, h⟩
    · left
      simp only [step, h]
    · simp only [step, h, statusOf]
      rw [findUser_applyRedeemWrite, hu]
      cases hc : u.id == ruid with
      | true =>
        right; left
        have heq : u.id = ruid := by simpa using hc
        simp [heq]
      | false =>
        left
        have hne : ¬ u.id = ruid := by simpa using hc
        simp [findUser, hu2, hne]
  | opCollect target a c r =>
    left
    simp only [step, collect_testimonial]
    cases findUser db target with
    | none => rfl
    | some u2 =>
      cases a with
      | none => rfl
      | some an =>
        cases c with
        | none => rfl
        | some cn => rfl
  | opApprove auid tid =>
    left
    simp only [step, approve_testimonial]
    split
    · rfl
    · split
      · rfl
      · rfl
  | opHide auid tid =>
    left
    simp only [step, hide_testimonial]
    split
    · rfl
    · split
      · rfl
      · rfl
  | opDelete auid tid =>
    left
    simp only [step, delete_testimonial]
    split
    · rfl
    · split
      · rfl
      · rfl
  | opUpdateWall wuid title =>
    left
    simp only [step, update_wall_settings, statusOf, findUser]
    rw [find?_map_of_pred _ _ _ (fun v => by split <;> rfl), hu2]
    cases hc : u.id == wuid with
    | true =>
      have heq : u.id = wuid := by simpa using hc
      simp [heq]
    | false =>
      have hne : ¬ u.id = wuid := by simpa using hc
      simp [hne]
  | opSuccess suid =>
    simp only [step, success, statusOf, findUser]
    rw [find?_map_of_pred _ _ _ (fun v => by split <;> rfl), hu2]
    cases hc : u.id == suid with
    | true =>
      right; right
      refine ⟨rfl, ?_⟩
      have heq : u.id = suid := by simpa using hc
      simp [heq]
    | false =>
      left
      have hne : ¬ u.id = suid := by simpa using hc
      simp [hne]
  | opAdminGenerate cs =>
    left
    rfl

/-! ### Claim C1 -/

/-- C1 counterexample: with two tenants both on the locked tier and one
active code, interleaving two redemption requests so that both SELECTs
(the read phase) happen before the first commit makes BOTH attempts
succeed and both tenants end on the lifetime tier — the check-and-set in
`redeem_code` is a separate read followed by an unguarded write, so the
claimed exactly-one-success linearizability fails. -/
theorem redeem_interleaved_double_success :
    (redeemCommit exDB 1 (redeemRead exDB "AB12")).1 = RedeemOutcome.success ∧
    (redeemCommit (redeemCommit exDB 1 (redeemRead exDB "AB12")).2 2
        (redeemRead exDB "AB12")).1 = RedeemOutcome.success ∧
    statusOf (redeemCommit (redeemCommit exDB 1 (redeemRead exDB "AB12")).2 2
        (redeemRead exDB "AB12")).2 1 = some SubStatus.lifetime ∧
    statusOf (redeemCommit (redeemCommit exDB 1 (redeemRead exDB "AB12")).2 2
        (redeemRead exDB "AB12")).2 2 = some SubStatus.lifetime := by
  decide

/-- C1 (amended): when redemption attempts on the same code run
sequentially — each request reading only after the previous one
committed — exactly the first succeeds, every later attempt fails with
the used-code error, the first tenant ends on the lifetime tier and
every other tenant keeps its previous tier.  (The original claim also
asserted this under arbitrary interleaving, via an atomic conditional
update; the code instead does a separate read and an unguarded write,
refuted by the interleaving counterexample.) -/
theorem redeem_sequential_exactly_one_success (db : DB) (u : Nat)
    (rest : List Nat) (raw : String) (pc : PromoCode)
    (hraw : raw ≠ "")
    (hpc : redeemRead db raw = some pc)
    (hact : pc.is_active = true)
    (hu : statusOf db u = some SubStatus.inactive) :
    (redeemAll db (u :: rest) raw).1 =
      RedeemOutcome.success :: List.replicate rest.length RedeemOutcome.usedCode ∧
    statusOf (redeemAll db (u :: rest) raw).2 u = some SubStatus.lifetime ∧
    (∀ v, v ≠ u → statusOf (redeemAll db (u :: rest) raw).2 v = statusOf db v) := by
  have h1 := redeem_code_success db u raw pc hraw hpc hact hu
  have hpc2 : findPromoByCode db (upperStr raw) = some pc := hpc
  have hdb1 : redeemRead (applyRedeemWrite db u pc.id) raw =
      some { pc with is_active := false, redeemed_by_user_id := some u } := by
    show findPromoByCode (applyRedeemWrite db u pc.id) (upperStr raw) = _
    exact findPromoByCode_applyRedeemWrite db u pc (upperStr raw) hpc2
  have h2 := redeemAll_inactive (applyRedeemWrite db u pc.id) rest raw _ hraw hdb1 rfl
  obtain ⟨u0, hu0⟩ : ∃ u0, findUser db u = some u0 := by
    cases hf : findUser db u with
    | none => simp [statusOf, hf] at hu
    | some w => exact ⟨w, rfl⟩
  have hall : redeemAll db (u :: rest) raw =
      (RedeemOutcome.success :: List.replicate rest.length RedeemOutcome.usedCode,
        applyRedeemWrite db u pc.id) := by
    simp [redeemAll, h1, h2]
  refine ⟨by rw [hall], ?_, ?_⟩
  · rw [hall]
    exact statusOf_applyRedeemWrite_self db u pc.id u0 hu0
  · intro v hv
    rw [hall]
    exact statusOf_applyRedeemWrite_other db u pc.id v hv

/-- C1 witness: two sequential attempts on the example state give one
success followed by one used-code failure. -/
theorem redeem_sequential_exactly_one_success_witness :
    (redeemAll exDB [1, 2] "ab12").1 =
      RedeemOutcome.success :: List.replicate 1 RedeemOutcome.usedCode ∧
    statusOf (redeemAll exDB [1, 2] "ab12").2 1 = some SubStatus.lifetime ∧
    (∀ v, v ≠ 1 → statusOf (redeemAll exDB [1, 2] "ab12").2 v = statusOf exDB v) :=
  redeem_sequential_exactly_one_success exDB 1 [2] "ab12" exCodeActive
    (by decide) (by decide) (by decide) (by decide)

/-! ### Claim C2 -/

/-- C2 counterexample: tenant 3 is on the lifetime tier, yet one visit
to the checkout success callback overwrites the tier with active — so a
lifetime tenant does NOT remain lifetime under every operation. -/
theorem success_callback_downgrades_lifetime :
    statusOf exDB 3 = some SubStatus.lifetime ∧
    statusOf (step exDB (Op.opSuccess 3)) 3 = some SubStatus.active := by
  decide

/-- C2 (amended): a tenant whose tier is active or lifetime never
returns to the locked tier (inactive) under any operation, and the
lifetime tier is preserved by every operation EXCEPT the checkout
success callback, which unconditionally overwrites the tier with
active. -/
theorem entitlement_no_return_to_locked (db : DB) (op : Op) (uid : Nat)
    (s : SubStatus) (hs : statusOf db uid = some s)
    (hns : s ≠ SubStatus.inactive) :
    ∃ t, statusOf (step db op) uid = some t ∧ t ≠ SubStatus.inactive ∧
      (s = SubStatus.lifetime → Op.isSuccessCallback op = false →
        t = SubStatus.lifetime) := by
  obtain ⟨u, hu⟩ : ∃ u, findUser db uid = some u := by
    cases hf : findUser db uid with
    | none => simp [statusOf, hf] at hs
    | some w => exact ⟨w, rfl⟩
  rcases statusOf_step db op uid u hu with h | h | ⟨hop, h⟩
  · exact ⟨s, by rw [h, hs], hns, fun hl _ => hl⟩
  · exact ⟨SubStatus.lifetime, h, by decide, fun _ _ => rfl⟩
  · refine ⟨SubStatus.active, h, by decide, fun _ hf => ?_⟩
    rw [hop] at hf
    simp at hf

/-- C2 witness: updating the wall settings of lifetime tenant 3 keeps
the lifetime tier. -/
theorem entitlement_no_return_to_locked_witness :
    ∃ t, statusOf (step exDB (Op.opUpdateWall 3 none)) 3 = some t ∧
      t ≠ SubStatus.inactive ∧
      (SubStatus.lifetime = SubStatus.lifetime →
        Op.isSuccessCallback (Op.opUpdateWall 3 none) = false →
        t = SubStatus.lifetime) :=
  entitlement_no_return_to_locked exDB (Op.opUpdateWall 3 none) 3
    SubStatus.lifetime (by decide) (by decide)

/-! ### Claim C3 -/

/-- C3 (confirmed): a tenant that is already active or lifetime redeeming
an existing, still-active code fails with the already-entitled error and
the state is completely unchanged — in particular the code row keeps
`is_active=true` and its null redeeming-tenant reference, and the tenant
keeps its tier. -/
theorem redeem_already_entitled_no_consume (db : DB) (uid : Nat)
    (raw : String) (pc : PromoCode)
    (hraw : raw ≠ "")
    (hpc : redeemRead db raw = some pc)
    (hact : pc.is_active = true)
    (hred : pc.redeemed_by_user_id = none)
    (hst : statusOf db uid = some SubStatus.active ∨
           statusOf db uid = some SubStatus.lifetime) :
    redeem_code db uid (some raw) = (RedeemOutcome.alreadyEntitled, db) ∧
    redeemRead (redeem_code db uid (some raw)).2 raw = some pc ∧
    pc.is_active = true ∧ pc.redeemed_by_user_id = none ∧
    statusOf (redeem_code db uid (some raw)).2 uid = statusOf db uid := by
  have h : redeem_code db uid (some raw) = (RedeemOutcome.alreadyEntitled, db) := by
    rw [redeem_code_some db uid raw hraw, hpc]
    simp [redeemCommit, hact, hst]
  refine ⟨h, ?_, hact, hred, ?_⟩
  · rw [h]
    exact hpc
  · rw [h]

/-- C3 witness: lifetime tenant 3 fails to redeem the still-active
example code and changes nothing. -/
theorem redeem_already_entitled_no_consume_witness :
    redeem_code exDB 3 (some "AB12") = (RedeemOutcome.alreadyEntitled, exDB) ∧
    redeemRead (redeem_code exDB 3 (some "AB12")).2 "AB12" = some exCodeActive ∧
    exCodeActive.is_active = true ∧ exCodeActive.redeemed_by_user_id = none ∧
    statusOf (redeem_code exDB 3 (some "AB12")).2 3 = statusOf exDB 3 :=
  redeem_already_entitled_no_consume exDB 3 "AB12" exCodeActive
    (by decide) (by decide) (by decide) (by decide) (Or.inr (by decide))

/-! ### Claim C4 -/

/-- C4 (confirmed): a moderation call (approve, hide or delete) on a
nonexistent testimonial id fails with the 404 not-found outcome; a call
by a tenant that does not own the testimonial fails with the 403
forbidden outcome; in both cases the state — so in particular the status
and existence of every testimonial — is unchanged. -/
theorem moderation_cross_tenant_forbidden (db : DB) (a : Nat) (tid : Nat) :
    (findTestimonial db tid = none →
      approve_testimonial db a tid = (ModOutcome.notFound, db) ∧
      hide_testimonial db a tid = (ModOutcome.notFound, db) ∧
      delete_testimonial db a tid = (ModOutcome.notFound, db)) ∧
    (∀ t, findTestimonial db tid = some t → t.user_id ≠ a →
      approve_testimonial db a tid = (ModOutcome.forbidden, db) ∧
      hide_testimonial db a tid = (ModOutcome.forbidden, db) ∧
      delete_testimonial db a tid = (ModOutcome.forbidden, db)) := by
  constructor
  · intro hnone
    refine ⟨?_, ?_, ?_⟩ <;>
      simp [approve_testimonial, hide_testimonial, delete_testimonial, hnone]
  · intro t ht howner
    refine ⟨?_, ?_, ?_⟩ <;>
      simp [approve_testimonial, hide_testimonial, delete_testimonial, ht, howner]

/-- C4 witness: tenant 2 acting on the testimonial of tenant 1 is
rejected with the forbidden outcome and nothing changes. -/
theorem moderation_cross_tenant_forbidden_witness :
    approve_testimonial exDB 2 1 = (ModOutcome.forbidden, exDB) ∧
    hide_testimonial exDB 2 1 = (ModOutcome.forbidden, exDB) ∧
    delete_testimonial exDB 2 1 = (ModOutcome.forbidden, exDB) :=
  (moderation_cross_tenant_forbidden exDB 2 1).2 exT1 (by decide) (by decide)

/-! ### Claim C5 -/

/-- C5 (confirmed): for a signup with a fresh email, a failing Stripe
customer creation aborts the operation with the provider error (carrying
the underlying message) and persists no tenant row; a successful one
creates exactly one tenant row carrying the returned customer
reference. -/
theorem signup_no_orphan_tenant (db : DB) (email password : String)
    (hfresh : db.users.any (fun u => u.email == email) = false) :
    (∀ e, signup db email password (Except.error e) =
      (SignupOutcome.providerError e, db)) ∧
    (∀ cid, signup db email password (Except.ok cid) =
      (SignupOutcome.created db.next_user_id,
       { db with
         users := db.users ++
           [{ id := db.next_user_id, email := email, password_hash := password
              subscription_status := SubStatus.inactive
              stripe_customer_id := some cid, wall_title := none }]
         next_user_id := db.next_user_id + 1 })) := by
  constructor
  · intro e
    simp [signup, hfresh]
  · intro cid
    simp [signup, hfresh]

/-- C5 witness: a fresh signup against the example state, with the
provider failing and with the provider succeeding. -/
theorem signup_no_orphan_tenant_witness :
    (∀ e, signup exDB "dan@example.com" "pw4" (Except.error e) =
      (SignupOutcome.providerError e, exDB)) ∧
    (∀ cid, signup exDB "dan@example.com" "pw4" (Except.ok cid) =
      (SignupOutcome.created exDB.next_user_id,
       { exDB with
         users := exDB.users ++
           [{ id := exDB.next_user_id, email := "dan@example.com"
              password_hash := "pw4"
              subscription_status := SubStatus.inactive
              stripe_customer_id := some cid, wall_title := none }]
         next_user_id := exDB.next_user_id + 1 })) :=
  signup_no_orphan_tenant exDB "dan@example.com" "pw4" (by decide)

/-! ### Claim C6 -/

/-- C6 (confirmed): the wall of an unknown tenant id is a 404; for a
known tenant it contains exactly the testimonials owned by that tenant
whose status is approved — no pending or hidden one — ordered by
descending creation-order id.  The handler only reads: `show_wall`
returns no successor state at all. -/
theorem show_wall_approved_only_desc (db : DB) (uid : Nat) :
    (findUser db uid = none → show_wall db uid = none) ∧
    (∀ u, findUser db uid = some u →
      ∃ L, show_wall db uid = some L ∧
        (∀ t, t ∈ L ↔ (t ∈ db.testimonials ∧ t.user_id = u.id ∧
          t.status = TStatus.approved)) ∧
        L.Pairwise wallOrder) := by
  constructor
  · intro h
    simp [show_wall, h]
  · intro u hu
    have hw : show_wall db uid = some (List.insertionSort wallOrder
        (db.testimonials.filter (fun t =>
          t.user_id == u.id && t.status == TStatus.approved))) := by
      simp [show_wall, hu]
    refine ⟨_, hw, ?_, ?_⟩
    · intro t
      rw [List.mem_insertionSort, List.mem_filter]
      simp [and_assoc]
    · exact List.sorted_insertionSort wallOrder _

/-- C6 witness: the example wall of tenant 1. -/
theorem show_wall_approved_only_desc_witness :
    ∃ L, show_wall exDB 1 = some L ∧
      (∀ t, t ∈ L ↔ (t ∈ exDB.testimonials ∧ t.user_id = exUser1.id ∧
        t.status = TStatus.approved)) ∧
      L.Pairwise wallOrder :=
  (show_wall_approved_only_desc exDB 1).2 exUser1 (by decide)

/-! ### Claim C7 -/

/-- C7 counterexample: with one unknown code string and one deactivated
code, the two failing redemption attempts take different branches and
flash different messages — the two failure causes are distinguishable to
the caller, contrary to the claim. -/
theorem redeem_failure_messages_differ :
    (redeem_code exDB 1 (some "ZZZZ")).1 = RedeemOutcome.invalidCode ∧
    (redeem_code exDB 1 (some "CD34")).1 = RedeemOutcome.usedCode ∧
    (redeem_code exDB 1 (some "ZZZZ")).1 ≠ (redeem_code exDB 1 (some "CD34")).1 ∧
    redeemFlash (redeem_code exDB 1 (some "ZZZZ")).1 ≠
      redeemFlash (redeem_code exDB 1 (some "CD34")).1 := by
  decide

/-- C7 (amended): an unknown code string and a known-but-deactivated one
both make redemption fail without changing the state, but through two
DIFFERENT outcomes with two different flash messages (invalid-code
vs used-code), so the two failure causes are distinguishable by the
caller. -/
theorem redeem_failure_distinct_errors (db : DB) (uid : Nat) (raw : String)
    (hraw : raw ≠ "") :
    (redeemRead db raw = none →
      redeem_code db uid (some raw) = (RedeemOutcome.invalidCode, db)) ∧
    (∀ pc, redeemRead db raw = some pc → pc.is_active = false →
      redeem_code db uid (some raw) = (RedeemOutcome.usedCode, db)) ∧
    redeemFlash RedeemOutcome.invalidCode ≠ redeemFlash RedeemOutcome.usedCode := by
  refine ⟨?_, ?_, by decide⟩
  · intro h
    rw [redeem_code_some db uid raw hraw, h]
    rfl
  · intro pc h hin
    exact redeem_code_inactive db uid raw pc hraw h hin

/-- C7 witness: the two failure branches on the example state. -/
theorem redeem_failure_distinct_errors_witness :
    redeem_code exDB 1 (some "ZZZZ") = (RedeemOutcome.invalidCode, exDB) ∧
    redeem_code exDB 1 (some "CD34") = (RedeemOutcome.usedCode, exDB) :=
  ⟨(redeem_failure_distinct_errors exDB 1 "ZZZZ" (by decide)).1 (by decide),
   (redeem_failure_distinct_errors exDB 1 "CD34" (by decide)).2.1 exCodeUsed
     (by decide) (by decide)⟩

/-! ### Claim C8 -/

/-- C8 counterexample: a submission whose author-name and content fields
are present but EMPTY is not rejected — it creates a pending record with
empty strings in both fields. -/
theorem collect_empty_fields_accepted :
    (collect_testimonial exDB 1 (some "") (some "") none).1 =
      SubmitOutcome.submitted 2 ∧
    (collect_testimonial exDB 1 (some "") (some "") none).2.testimonials =
      exDB.testimonials ++
        [{ id := 2, author_name := "", content := ""
           status := TStatus.pending, rating := 5, user_id := 1 }] := by
  decide

/-- C8 (amended): every public submission to a known tenant with the
author-name and content fields present creates the testimonial with
status pending (never any other initial status); a submission MISSING
the author-name or the content field entirely is rejected (400) without
creating a record — but a present-and-empty value is accepted and does
create a record. -/
theorem collect_creates_pending (db : DB) (uid : Nat) (u : User)
    (author content : String) (ma mc : Option String) (rating : Option Int)
    (hu : findUser db uid = some u) :
    collect_testimonial db uid (some author) (some content) rating =
      (SubmitOutcome.submitted db.next_testimonial_id,
       { db with
         testimonials := db.testimonials ++
           [{ id := db.next_testimonial_id, author_name := author
              content := content, status := TStatus.pending
              rating := rating.getD 5, user_id := u.id }]
         next_testimonial_id := db.next_testimonial_id + 1 }) ∧
    collect_testimonial db uid none mc rating = (SubmitOutcome.badRequest, db) ∧
    collect_testimonial db uid ma none rating = (SubmitOutcome.badRequest, db) := by
  refine ⟨?_, ?_, ?_⟩
  · simp [collect_testimonial, hu]
  · simp [collect_testimonial, hu]
  · cases ma with
    | none => simp [collect_testimonial, hu]
    | some a => simp [collect_testimonial, hu]

/-- C8 witness: a well-formed submission, and two submissions with a
missing field, against the example state. -/
theorem collect_creates_pending_witness :
    collect_testimonial exDB 1 (some "Bob") (some "Great product")
        (some 4) =
      (SubmitOutcome.submitted exDB.next_testimonial_id,
       { exDB with
         testimonials := exDB.testimonials ++
           [{ id := exDB.next_testimonial_id, author_name := "Bob"
              content := "Great product", status := TStatus.pending
              rating := (some (4 : Int)).getD 5, user_id := exUser1.id }]
         next_testimonial_id := exDB.next_testimonial_id + 1 }) ∧
    collect_testimonial exDB 1 none (some "x") (some 4) =
      (SubmitOutcome.badRequest, exDB) ∧
    collect_testimonial exDB 1 (some "x") none (some 4) =
      (SubmitOutcome.badRequest, exDB) :=
  collect_creates_pending exDB 1 exUser1 "Bob" "Great product"
    (some "x") (some "x") (some 4) (by decide)

/-! ### Claim C9 -/

/-- C9 counterexample: the stored code AB12 is active, yet redeeming a
padded lowercased rendering of it fails the lookup with the invalid-code
error and changes nothing — the handler uppercases the input but never
trims surrounding whitespace, contrary to the claim. -/
theorem redeem_padded_code_fails :
    findPromoByCode exDB "AB12" = some exCodeActive ∧
    exCodeActive.is_active = true ∧
    redeem_code exDB 1 (some " ab12 ") = (RedeemOutcome.invalidCode, exDB) := by
  decide

/-- C9 (amended): redemption normalizes the submitted code string by
uppercasing ONLY — no whitespace trimming — before the ledger lookup, so
for a stored code C any rendering whose uppercasing equals C (for
example a lowercased rendering) succeeds the lookup of C, while a padded
rendering does not (counterexample); a missing or empty input fails with
the empty-code error before any lookup, leaving the state unchanged. -/
theorem redeem_uppercase_no_trim (db : DB) (uid : Nat) (c : String)
    (pc : PromoCode) (s : String)
    (hc : findPromoByCode db c = some pc)
    (hupper : upperStr s = c) (hs : s ≠ "") :
    redeemRead db s = some pc ∧
    redeem_code db uid (some s) = redeemCommit db uid (some pc) ∧
    redeem_code db uid none = (RedeemOutcome.emptyCode, db) ∧
    redeem_code db uid (some "") = (RedeemOutcome.emptyCode, db) := by
  have hr : redeemRead db s = some pc := by
    rw [redeemRead, hupper]
    exact hc
  refine ⟨hr, ?_, rfl, by simp [redeem_code]⟩
  rw [redeem_code_some db uid s hs, hr]

/-- C9 witness: the lowercased rendering of the stored example code
reaches the lookup of that code. -/
theorem redeem_uppercase_no_trim_witness :
    redeemRead exDB "ab12" = some exCodeActive ∧
    redeem_code exDB 1 (some "ab12") = redeemCommit exDB 1 (some exCodeActive) ∧
    redeem_code exDB 1 none = (RedeemOutcome.emptyCode, exDB) ∧
    redeem_code exDB 1 (some "") = (RedeemOutcome.emptyCode, exDB) :=
  redeem_uppercase_no_trim exDB 1 "AB12" exCodeActive "ab12"
    (by decide) (by decide) (by decide)

/-! ### Claim C10 -/

/-- C10 (confirmed): a public submission without the rating field
creates the testimonial with rating 5; a supplied rating is stored
exactly as given, for every integer — there is no range validation. -/
theorem collect_rating_default_five (db : DB) (uid : Nat) (u : User)
    (author content : String) (hu : findUser db uid = some u) :
    (collect_testimonial db uid (some author) (some content)
        none).2.testimonials =
      db.testimonials ++
        [{ id := db.next_testimonial_id, author_name := author
           content := content, status := TStatus.pending, rating := 5
           user_id := u.id }] ∧
    (∀ r : Int,
      (collect_testimonial db uid (some author) (some content)
          (some r)).2.testimonials =
        db.testimonials ++
          [{ id := db.next_testimonial_id, author_name := author
             content := content, status := TStatus.pending, rating := r
             user_id := u.id }]) := by
  constructor
  · simp [collect_testimonial, hu]
  · intro r
    simp [collect_testimonial, hu]

/-- C10 witness: a submission without rating gets 5, and a supplied
out-of-range rating is stored as given. -/
theorem collect_rating_default_five_witness :
    (collect_testimonial exDB 1 (some "Bob") (some "Nice")
        none).2.testimonials =
      exDB.testimonials ++
        [{ id := exDB.next_testimonial_id, author_name := "Bob"
           content := "Nice", status := TStatus.pending, rating := 5
           user_id := exUser1.id }] ∧
    (∀ r : Int,
      (collect_testimonial exDB 1 (some "Bob") (some "Nice")
          (some r)).2.testimonials =
        exDB.testimonials ++
          [{ id := exDB.next_testimonial_id, author_name := "Bob"
             content := "Nice", status := TStatus.pending, rating := r
             user_id := exUser1.id }]) :=
  collect_rating_default_five exDB 1 exUser1 "Bob" "Nice" (by decide)

end TestimonialWall
